import Mathlib

/-!
Shallow embedding of src/rust/src/connector/bybit/ws.rs: the Bybit websocket
connector (public market-data, private account and trade order-entry stream
handlers together with their session loops).

Modelling conventions.  Wire frames are modelled post-decode: a handler takes
the result of the serde_json decode of the inbound text frame, with an
Except.error input standing for an undecodable frame.  Channel sends on the
event channel are modelled by the list of emitted events, in send order;
socket writes by a list of sent control frames; a Rust panic (an unwrap of a
missing value) by a distinguished handler outcome.  The local clock reading
taken at decode time (Utc::now) is passed in as an explicit integer
parameter.  The ordermanager module and the types/msg modules of the
repository are not under src/, so where their behavior decides a statement
they are modelled from the spec, as marked in the doc comments below; the
code of ws.rs itself is translated directly.
-/

namespace BybitWs

/-- Asset mapping entry (live::Asset), used in ws.rs through its asset_no
field only. -/
structure Asset where
  asset_no : Nat
deriving DecidableEq

/-- Modelled from the spec: types::Side, not under src/.  The spec describes
the engine side as a two-valued enumeration, while the venue-decoded side of
a msg::Trade item may carry an unexpected value; the third constructor
stands for any such value. -/
inductive Side where
  | Buy
  | Sell
  | Other
deriving DecidableEq

/-- Modelled from the spec: the numeric side code BUY of types is not under
src/; the spec requires only two distinct boundary values. -/
def BUY : Int := 1

/-- Modelled from the spec: the numeric side code SELL of types is not under
src/; see BUY. -/
def SELL : Int := -1

/-- Errors returned by the handlers, mirroring ordermanager::HandleError as
used in ws.rs: serde decode failures, numeric parse failures, missing
asset or request id, unmatched topic, and order-ledger failures (the ledger
variants are modelled from the spec, the module being outside src/).
AuthFailed mirrors the BybitError::AuthError value wrapped into the error
returned by handle_trade_stream. -/
inductive HandleError where
  | DecodeError
  | NumParseError
  | AssetNotFound
  | ReqIdNotExist
  | PrefixUnmatched
  | OrderNotFound
  | InvalidOrderState
  | AuthFailed (code : Int) (msg : String)
deriving DecidableEq

/-- types::Depth event payload.  Prices and quantities are kept as exact
rationals; the f32 rounding of the Rust representation is not modelled. -/
structure Depth where
  asset_no : Nat
  exch_ts : Int
  local_ts : Int
  bids : List (Rat × Rat)
  asks : List (Rat × Rat)
deriving DecidableEq

/-- types::Trade event payload (side is the i8 boundary code). -/
structure Trade where
  asset_no : Nat
  exch_ts : Int
  local_ts : Int
  side : Int
  price : Rat
  qty : Rat
deriving DecidableEq

/-- prelude::Position event payload. -/
structure Position where
  asset_no : Nat
  symbol : String
  qty : Rat
deriving DecidableEq

/-- Order lifecycle states of the ledger.  Modelled from the spec: the
ordermanager module is not under src/; states follow the §4.3 state
machine. -/
inductive OrdStatus where
  | New
  | Submitted
  | PartiallyFilled
  | Filled
  | Canceled
  | SubmitRejected
  | CancelRejected
deriving DecidableEq

/-- Ledger entry of the order manager.  Modelled from the spec: keyed by the
client request id (order_link_id); pendingCancel marks a cancel-pending
entry so update_cancel_fail can restore the pre-cancel live state. -/
structure LedgerOrder where
  asset_no : Nat
  req_id : String
  status : OrdStatus
  qty : Rat
  filled : Rat
  pendingCancel : Bool
deriving DecidableEq

/-- The shared order ledger, as an association list keyed by the client
request id.  Modelled from the spec: the ordermanager module is not under
src/. -/
abbrev OrderManager : Type := List (String × LedgerOrder)

/-- types::ErrorKind values used by ws.rs. -/
inductive ErrorKind where
  | CriticalConnectionError
  | OrderError
deriving DecidableEq

/-- BybitError values used by ws.rs, each carrying the venue result code and
message. -/
inductive BybitError where
  | AuthError (code : Int) (msg : String)
  | OrderError (code : Int) (msg : String)
deriving DecidableEq

/-- types::LiveEvent, the single normalized output union.  The Order
constructor carries the (asset_no, order) pair of types::OrderResponse. -/
inductive LiveEvent where
  | Depth (d : Depth)
  | Trade (t : Trade)
  | Position (p : Position)
  | Order (asset_no : Nat) (order : LedgerOrder)
  | Error (kind : ErrorKind) (value : BybitError)
deriving DecidableEq

/-- Value of a digit list, most significant digit first. -/
def digitsVal (cs : List Char) : Nat :=
  cs.foldl (fun n c => 10 * n + (c.toNat - 48)) 0

/-- Unsigned part of the decimal grammar accepted by parseDec: digits with
at most one decimal point and at least one digit overall. -/
def parseUnsignedDec (cs : List Char) : Option Rat :=
  let intPart := cs.takeWhile (fun c => c.isDigit)
  let rest := cs.dropWhile (fun c => c.isDigit)
  match rest with
  | [] => if intPart.isEmpty then none else some ((digitsVal intPart : Nat) : Rat)
  | p :: fracPart =>
    if p = '.' ∧ fracPart.all (fun c => c.isDigit) ∧ ¬(intPart.isEmpty ∧ fracPart.isEmpty) then
      some (((digitsVal intPart : Nat) : Rat)
        + ((digitsVal fracPart : Nat) : Rat) / ((10 : Rat) ^ fracPart.length))
    else none

/-- Models the accept/reject behavior of Rust str::parse to f32 on the
decimal literals carried by this protocol: an optional sign followed by the
unsigned grammar above.  The value is kept exact as a rational; the
binary-float rounding and the inf/nan/exponent forms (never sent by the
venue) are not modelled. -/
def parseDec (s : String) : Option Rat :=
  match s.data with
  | '-' :: rest => (parseUnsignedDec rest).map (fun q => -q)
  | '+' :: rest => parseUnsignedDec rest
  | cs => parseUnsignedDec cs

/-- ws.rs parse_px_qty_tup: parses the price then the quantity string; the
first failure aborts with a numeric parse error (the Rust question-mark on
ParseFloatError). -/
def parse_px_qty_tup (px qty : String) : Except HandleError (Rat × Rat) :=
  match parseDec px with
  | none => .error .NumParseError
  | some p =>
    match parseDec qty with
    | none => .error .NumParseError
    | some q => .ok (p, q)

/-- One side of ws.rs parse_depth: the push loop over the level list,
aborting at the first parse failure. -/
def parseLevels : List (String × String) → Except HandleError (List (Rat × Rat))
  | [] => .ok []
  | (px, qty) :: rest => do
    let t ← parse_px_qty_tup px qty
    let ts ← parseLevels rest
    .ok (t :: ts)

/-- ws.rs parse_depth: bids first, then asks; a failure on either side
aborts the whole message. -/
def parse_depth (bids asks : List (String × String)) :
    Except HandleError (List (Rat × Rat) × List (Rat × Rat)) := do
  let b ← parseLevels bids
  let a ← parseLevels asks
  .ok (b, a)

/-- msg::OrderBook payload: symbol together with string-encoded levels. -/
structure OrderBook where
  symbol : String
  bids : List (String × String)
  asks : List (String × String)
deriving DecidableEq

/-- msg::Trade item of a publicTrade payload, fields as read by ws.rs
(ts is the venue millisecond timestamp). -/
structure TradeItem where
  symbol : String
  ts : Int
  side : Side
  trade_price : Rat
  trade_size : Rat
deriving DecidableEq

/-- Operation acknowledgement fields read by the handlers (req_id, op and
the optional success flag). -/
structure OpResp where
  req_id : Option String
  op : String
  success : Option Bool
deriving DecidableEq

/-- The still-undecoded data field of a public topic message.  ws.rs decodes
in two phases: the envelope first, then serde_json::from_value against the
schema selected by the topic.  A value is modelled by what it successfully
decodes to; malformed decodes as nothing. -/
inductive RawData where
  | orderBook (ob : OrderBook)
  | trades (items : List TradeItem)
  | malformed
deriving DecidableEq

/-- Envelope of a public topic message: topic name, optional venue
timestamp cts (milliseconds), and the raw data value. -/
structure TopicMsg where
  topic : String
  cts : Option Int
  data : RawData
deriving DecidableEq

/-- msg::PublicStreamMsg: an operation acknowledgement or a topic
payload. -/
inductive PublicStreamMsg where
  | Op (resp : OpResp)
  | Topic (tm : TopicMsg)
deriving DecidableEq

/-- Second-phase decode of a topic data value against the OrderBook
schema. -/
def decodeOrderBook : RawData → Except HandleError OrderBook
  | .orderBook ob => .ok ob
  | _ => .error .DecodeError

/-- Second-phase decode of a topic data value against the trade-list
schema. -/
def decodeTrades : RawData → Except HandleError (List TradeItem)
  | .trades items => .ok items
  | _ => .error .DecodeError

/-- Character-list prefix test (pattern first), by structural recursion so
that concrete instances compute. -/
def isCharPre : List Char → List Char → Bool
  | [], _ => true
  | _ :: _, [] => false
  | p :: ps, c :: cs => if p = c then isCharPre ps cs else false

/-- Models Rust str::starts_with as used for topic routing: does s start
with the pattern pat. -/
def strStarts (s pat : String) : Bool :=
  isCharPre pat.data s.data

/-- Outcome of one handler call: normal return, a returned error (which the
session loop logs before continuing), or a Rust panic. -/
inductive HandlerOutcome where
  | ok
  | err (e : HandleError)
  | panicked
deriving DecidableEq

/-- Association-list lookup for the Asset mapping and the ledger
(HashMap::get in ws.rs). -/
def alookup {α : Type} : List (String × α) → String → Option α
  | [], _ => none
  | (k, v) :: rest, s => if k = s then some v else alookup rest s

/-- The per-item loop of the publicTrade branch of handle_public_stream:
one Trade event per item; an unknown symbol aborts the batch through the
Rust question-mark, while events already sent stay sent. -/
def pubTradeLoop (now : Int) (assets : List (String × Asset)) :
    List TradeItem → List LiveEvent × Except HandleError Unit
  | [] => ([], .ok ())
  | item :: rest =>
    match alookup assets item.symbol with
    | none => ([], .error .AssetNotFound)
    | some a =>
      let ev := LiveEvent.Trade
        { asset_no := a.asset_no
          exch_ts := item.ts * 1000000
          local_ts := now
          side := if item.side = Side.Sell then SELL else BUY
          price := item.trade_price
          qty := item.trade_size }
      let r := pubTradeLoop now assets rest
      (ev :: r.1, r.2)

/-- ws.rs handle_public_stream on the decode result of the inbound text
frame; now is the local clock at decode time.  Returns the events sent on
the event channel and the call outcome.  In the orderbook branch the venue
timestamp cts is unwrapped unconditionally after the data decode, the depth
parse and the asset lookup have succeeded: a missing cts there is a
panic. -/
def handle_public_stream (now : Int) (decoded : Except Unit PublicStreamMsg)
    (assets : List (String × Asset)) : List LiveEvent × HandlerOutcome :=
  match decoded with
  | .error _ => ([], .err .DecodeError)
  | .ok (.Op _) => ([], .ok)
  | .ok (.Topic tm) =>
    if strStarts tm.topic "orderbook" then
      match decodeOrderBook tm.data with
      | .error e => ([], .err e)
      | .ok ob =>
        match parse_depth ob.bids ob.asks with
        | .error e => ([], .err e)
        | .ok ba =>
          match alookup assets ob.symbol with
          | none => ([], .err .AssetNotFound)
          | some a =>
            match tm.cts with
            | none => ([], .panicked)
            | some c =>
              ([LiveEvent.Depth
                  { asset_no := a.asset_no
                    exch_ts := c * 1000000
                    local_ts := now
                    bids := ba.1
                    asks := ba.2 }], .ok)
    else if strStarts tm.topic "publicTrade" then
      match decodeTrades tm.data with
      | .error e => ([], .err e)
      | .ok items =>
        let r := pubTradeLoop now assets items
        (r.1, match r.2 with | .ok _ => .ok | .error e => .err e)
    else
      ([], .ok)

/-- One inbound socket read of a session loop: a frame of a given decoded
frame type, a transport error, or the end of the stream. -/
inductive SocketRead (F : Type) where
  | text (f : F)
  | binary
  | ping
  | pong
  | close
  | frameMsg
  | readErr
  | streamEnd

/-- A serviced arm of the public session select loop: the keepalive tick or
one socket read, paired with the local clock value at which it is
serviced. -/
inductive PubArm where
  | tick
  | read (m : SocketRead (Except Unit PublicStreamMsg))

/-- How a session loop stands after the supplied inputs: still running,
returned normally (peer close or stream end, and for connect_trade also
queue closure), returned a transport error, or panicked inside a
handler. -/
inductive LoopResult where
  | running
  | finishedOk
  | transportError
  | panicked
deriving DecidableEq

/-- The select loop of ws.rs connect_public on a finite schedule of serviced
arms: emitted events and the loop state afterwards.  A handler error is
logged and the loop continues; a handler panic unwinds the task; Close and
stream end break normally; a read error returns the transport error.
Keepalive ping and pong writes change no observable tracked here. -/
def connect_public_loop (assets : List (String × Asset)) :
    List (Int × PubArm) → List LiveEvent × LoopResult
  | [] => ([], .running)
  | (now, arm) :: rest =>
    match arm with
    | .tick => connect_public_loop assets rest
    | .read (.text f) =>
      let h := handle_public_stream now f assets
      match h.2 with
      | .panicked => (h.1, .panicked)
      | _ =>
        let r := connect_public_loop assets rest
        (h.1 ++ r.1, r.2)
    | .read .binary => connect_public_loop assets rest
    | .read .ping => connect_public_loop assets rest
    | .read .pong => connect_public_loop assets rest
    | .read .close => ([], .finishedOk)
    | .read .frameMsg => connect_public_loop assets rest
    | .read .readErr => ([], .transportError)
    | .read .streamEnd => ([], .finishedOk)

/-- Outbound control frame msg::Op: req_id, op and string arguments. -/
structure Op where
  req_id : String
  op : String
  args : List String
deriving DecidableEq

/-- The keepalive frame sent on every timer tick of the session loops. -/
def pingOp : Op :=
  { req_id := "ping", op := "ping", args := [] }

/-- The subscription frame sent by handle_private_stream after a successful
authentication acknowledgement. -/
def privateSubscribeOp : Op :=
  { req_id := "3", op := "subscribe", args := ["position", "execution.fast"] }

/-- Item of a position topic payload, fields as read by ws.rs. -/
structure PositionItem where
  symbol : String
  position_value : Rat
deriving DecidableEq

/-- Item of an execution.fast topic payload.  Modelled from the spec: the
msg and ordermanager modules are not under src/; a fill report carries the
client order id and the executed quantity. -/
structure ExecItem where
  order_link_id : String
  exec_qty : Rat
deriving DecidableEq

/-- Item of an order topic payload.  Modelled from the spec: a venue
order-state push carries the client order id and the venue-reported
state. -/
structure OrderItem where
  order_link_id : String
  order_status : OrdStatus
deriving DecidableEq

/-- msg::PrivateStreamTopicMsg: the three private topic payload shapes
(each wraps its item list, here collapsed to the list itself). -/
inductive PrivateStreamTopicMsg where
  | Position (items : List PositionItem)
  | FastExecution (items : List ExecItem)
  | Order (items : List OrderItem)
deriving DecidableEq

/-- msg::PrivateStreamMsg: an operation acknowledgement or a private topic
payload. -/
inductive PrivateStreamMsg where
  | Op (resp : OpResp)
  | Topic (t : PrivateStreamTopicMsg)
deriving DecidableEq

/-- Pointwise update of a ledger entry under its request id key. -/
def omUpdate (om : OrderManager) (rid : String) (o : LedgerOrder) : OrderManager :=
  om.map (fun p => if p.1 = rid then (rid, o) else p)

/-- Modelled from the spec: ordermanager update_submit_fail, not under
src/.  Only legal while the entry is in New or Submitted; transitions it to
SubmitRejected and returns the (asset_no, order) pair for event emission;
an unmatched id is an error and leaves the ledger unchanged. -/
def update_submit_fail (om : OrderManager) (rid : String) :
    Except HandleError (OrderManager × Nat × LedgerOrder) :=
  match alookup om rid with
  | none => .error .OrderNotFound
  | some o =>
    if o.status = OrdStatus.New ∨ o.status = OrdStatus.Submitted then
      let o2 := { o with status := OrdStatus.SubmitRejected }
      .ok (omUpdate om rid o2, o.asset_no, o2)
    else .error .InvalidOrderState

/-- Modelled from the spec: ordermanager update_cancel_fail, not under
src/.  Transitions a cancel-pending entry back to its pre-cancel live state
(the order is not destroyed) and returns it for event emission; an
unmatched id is an error and leaves the ledger unchanged. -/
def update_cancel_fail (om : OrderManager) (rid : String) :
    Except HandleError (OrderManager × Nat × LedgerOrder) :=
  match alookup om rid with
  | none => .error .OrderNotFound
  | some o =>
    let o2 := { o with pendingCancel := false }
    .ok (omUpdate om rid o2, o.asset_no, o2)

/-- Modelled from the spec: ordermanager update_execution, not under src/.
Accumulates the executed quantity on the matched entry, transitioning it to
PartiallyFilled or Filled; an unmatched id is an error. -/
def update_execution (om : OrderManager) (e : ExecItem) :
    Except HandleError (OrderManager × Nat × LedgerOrder) :=
  match alookup om e.order_link_id with
  | none => .error .OrderNotFound
  | some o =>
    let filled := o.filled + e.exec_qty
    let o2 := { o with
      filled := filled
      status := if o.qty ≤ filled then OrdStatus.Filled else OrdStatus.PartiallyFilled }
    .ok (omUpdate om e.order_link_id o2, o.asset_no, o2)

/-- Modelled from the spec: ordermanager update_order, not under src/.
Transitions the matched entry to the venue-reported state; an unmatched id
is an error. -/
def update_order (om : OrderManager) (item : OrderItem) :
    Except HandleError (OrderManager × Nat × LedgerOrder) :=
  match alookup om item.order_link_id with
  | none => .error .OrderNotFound
  | some o =>
    let o2 := { o with status := item.order_status }
    .ok (omUpdate om item.order_link_id o2, o.asset_no, o2)

/-- Output of one private-stream handler call: events sent on the event
channel, control frames written to the socket, the ledger state afterwards,
and the call outcome. -/
structure PrivOut where
  events : List LiveEvent
  sends : List Op
  om : OrderManager
  outcome : HandlerOutcome
deriving DecidableEq

/-- The per-item loop of the position branch of handle_private_stream: one
Position event per item; an unknown symbol aborts the batch through the
Rust question-mark (events already sent stay sent). -/
def privPositionLoop (assets : List (String × Asset)) :
    List PositionItem → List LiveEvent × Except HandleError Unit
  | [] => ([], .ok ())
  | item :: rest =>
    match alookup assets item.symbol with
    | none => ([], .error .AssetNotFound)
    | some a =>
      let r := privPositionLoop assets rest
      (LiveEvent.Position
        { asset_no := a.asset_no
          symbol := item.symbol
          qty := item.position_value } :: r.1, r.2)

/-- The per-item loop of the execution branch of handle_private_stream: a
per-item ledger failure is logged and the loop continues with the next
item. -/
def privExecLoop (om : OrderManager) :
    List ExecItem → List LiveEvent × OrderManager
  | [] => ([], om)
  | item :: rest =>
    match update_execution om item with
    | .error _ => privExecLoop om rest
    | .ok (om2, an, ord) =>
      let r := privExecLoop om2 rest
      (LiveEvent.Order an ord :: r.1, r.2)

/-- The per-item loop of the order branch of handle_private_stream: a
per-item ledger failure is logged and the loop continues with the next
item. -/
def privOrderLoop (om : OrderManager) :
    List OrderItem → List LiveEvent × OrderManager
  | [] => ([], om)
  | item :: rest =>
    match update_order om item with
    | .error _ => privOrderLoop om rest
    | .ok (om2, an, ord) =>
      let r := privOrderLoop om2 rest
      (LiveEvent.Order an ord :: r.1, r.2)

/-- ws.rs handle_private_stream on the decode result of the inbound text
frame (the decode may fail with a serde error or the PrefixUnmatched
variant).  In the auth acknowledgement branch the optional success flag is
unwrapped unconditionally: an absent flag is a panic.  On success the
subscription frame is written; on a reported failure the else branch of the
source is empty (a commented-out error return), so nothing is sent or
emitted and the call returns normally. -/
def handle_private_stream (decoded : Except HandleError PrivateStreamMsg)
    (assets : List (String × Asset)) (om : OrderManager) : PrivOut :=
  match decoded with
  | .error e => ⟨[], [], om, .err e⟩
  | .ok (.Op resp) =>
    if resp.op = "auth" then
      match resp.success with
      | none => ⟨[], [], om, .panicked⟩
      | some true => ⟨[], [privateSubscribeOp], om, .ok⟩
      | some false => ⟨[], [], om, .ok⟩
    else ⟨[], [], om, .ok⟩
  | .ok (.Topic (.Position items)) =>
    let r := privPositionLoop assets items
    ⟨r.1, [], om, match r.2 with | .ok _ => .ok | .error e => .err e⟩
  | .ok (.Topic (.FastExecution items)) =>
    let r := privExecLoop om items
    ⟨r.1, [], r.2, .ok⟩
  | .ok (.Topic (.Order items)) =>
    let r := privOrderLoop om items
    ⟨r.1, [], r.2, .ok⟩

/-- A serviced arm of the private session select loop. -/
inductive PrivArm where
  | tick
  | read (m : SocketRead (Except HandleError PrivateStreamMsg))

/-- State of a private session loop run: events, socket control frames, the
ledger afterwards, and the loop state. -/
structure SessionOut where
  events : List LiveEvent
  sends : List Op
  om : OrderManager
  result : LoopResult
deriving DecidableEq

/-- The select loop of ws.rs connect_private on a finite schedule of
serviced arms.  Handler errors (including PrefixUnmatched) are logged and
the loop continues; a handler panic unwinds the task; Close and stream end
break normally; a read error returns the transport error.  Pong writes are
not Op frames and change no observable tracked here. -/
def connect_private_loop (assets : List (String × Asset)) (om : OrderManager) :
    List PrivArm → SessionOut
  | [] => ⟨[], [], om, .running⟩
  | arm :: rest =>
    match arm with
    | .tick =>
      let r := connect_private_loop assets om rest
      ⟨r.events, pingOp :: r.sends, r.om, r.result⟩
    | .read (.text f) =>
      let h := handle_private_stream f assets om
      match h.outcome with
      | .panicked => ⟨h.events, h.sends, h.om, .panicked⟩
      | _ =>
        let r := connect_private_loop assets h.om rest
        ⟨h.events ++ r.events, h.sends ++ r.sends, r.om, r.result⟩
    | .read .binary => connect_private_loop assets om rest
    | .read .ping => connect_private_loop assets om rest
    | .read .pong => connect_private_loop assets om rest
    | .read .close => ⟨[], [], om, .finishedOk⟩
    | .read .frameMsg => connect_private_loop assets om rest
    | .read .readErr => ⟨[], [], om, .transportError⟩
    | .read .streamEnd => ⟨[], [], om, .finishedOk⟩

/-- msg::TradeStreamMsg fields read by handle_trade_stream. -/
structure TradeStreamMsg where
  req_id : Option String
  op : String
  ret_code : Int
  ret_msg : String
deriving DecidableEq

/-- Output of one trade-stream handler call: events, ledger afterwards, and
the call outcome. -/
structure TradeOut where
  events : List LiveEvent
  om : OrderManager
  outcome : HandlerOutcome
deriving DecidableEq

/-- ws.rs handle_trade_stream on the decode result of the inbound text
frame.  An auth acknowledgement with a non-zero result code emits the
critical-connection Error event and returns an error; an order.create or
order.cancel acknowledgement first requires req_id, then on a non-zero
result code runs the matching ledger failure transition under the lock and
emits the OrderUpdate followed by the order Error event; a zero result code
does nothing; any other op is only logged. -/
def handle_trade_stream (decoded : Except Unit TradeStreamMsg)
    (om : OrderManager) : TradeOut :=
  match decoded with
  | .error _ => ⟨[], om, .err .DecodeError⟩
  | .ok stream =>
    if stream.op = "auth" then
      if stream.ret_code ≠ 0 then
        ⟨[LiveEvent.Error ErrorKind.CriticalConnectionError
            (BybitError.AuthError stream.ret_code stream.ret_msg)], om,
          .err (.AuthFailed stream.ret_code stream.ret_msg)⟩
      else ⟨[], om, .ok⟩
    else if stream.op = "order.create" then
      match stream.req_id with
      | none => ⟨[], om, .err .ReqIdNotExist⟩
      | some rid =>
        if stream.ret_code ≠ 0 then
          match update_submit_fail om rid with
          | .error e => ⟨[], om, .err e⟩
          | .ok (om2, an, ord) =>
            ⟨[LiveEvent.Order an ord,
              LiveEvent.Error ErrorKind.OrderError
                (BybitError.OrderError stream.ret_code stream.ret_msg)], om2, .ok⟩
        else ⟨[], om, .ok⟩
    else if stream.op = "order.cancel" then
      match stream.req_id with
      | none => ⟨[], om, .err .ReqIdNotExist⟩
      | some rid =>
        if stream.ret_code ≠ 0 then
          match update_cancel_fail om rid with
          | .error e => ⟨[], om, .err e⟩
          | .ok (om2, an, ord) =>
            ⟨[LiveEvent.Order an ord,
              LiveEvent.Error ErrorKind.OrderError
                (BybitError.OrderError stream.ret_code stream.ret_msg)], om2, .ok⟩
        else ⟨[], om, .ok⟩
    else ⟨[], om, .ok⟩

/-- msg::Order payload of an outbound order-entry request, used by ws.rs
through its order_link_id field. -/
structure BybitOrder where
  order_link_id : String
deriving DecidableEq

/-- ws.rs BybitOrderReq: the operation name and the order payload taken
from the intake queue (the completion channel is not an observable of this
model). -/
structure BybitOrderReq where
  op : String
  bybit_order : BybitOrder
deriving DecidableEq

/-- A frame written to the trade session socket: a control Op, an
order-entry TradeOp (req_id, header timestamp in milliseconds, op and
order), or a pong reply. -/
inductive SentFrame where
  | ctrl (o : Op)
  | tradeOp (req_id : String) (header_ts : Int) (op : String) (order : BybitOrder)
  | pong
deriving DecidableEq

/-- A serviced arm of the trade session select loop: keepalive tick, an
intake-queue item (or queue closure), or one socket read. -/
inductive TradeArm where
  | tick
  | orderReq (r : BybitOrderReq)
  | queueClosed
  | read (m : SocketRead (Except Unit TradeStreamMsg))

/-- State of a trade session loop run. -/
structure TradeSessionOut where
  events : List LiveEvent
  sends : List SentFrame
  om : OrderManager
  result : LoopResult
deriving DecidableEq

/-- The select loop of ws.rs connect_trade on a finite schedule of serviced
arms, each paired with the local clock in milliseconds when serviced.  An
intake item is wrapped as a TradeOp carrying req_id equal to the caller
order_link_id and a timestamp header, and sent immediately; queue closure
breaks normally; handler errors (including the auth failure error) are
logged and the loop continues; Close and stream end break; a read error
returns the transport error. -/
def connect_trade_loop (om : OrderManager) :
    List (Int × TradeArm) → TradeSessionOut
  | [] => ⟨[], [], om, .running⟩
  | (now, arm) :: rest =>
    match arm with
    | .tick =>
      let r := connect_trade_loop om rest
      ⟨r.events, .ctrl pingOp :: r.sends, r.om, r.result⟩
    | .orderReq req =>
      let r := connect_trade_loop om rest
      ⟨r.events,
        .tradeOp req.bybit_order.order_link_id now req.op req.bybit_order :: r.sends,
        r.om, r.result⟩
    | .queueClosed => ⟨[], [], om, .finishedOk⟩
    | .read (.text f) =>
      let h := handle_trade_stream f om
      match h.outcome with
      | .panicked => ⟨h.events, [], h.om, .panicked⟩
      | _ =>
        let r := connect_trade_loop h.om rest
        ⟨h.events ++ r.events, r.sends, r.om, r.result⟩
    | .read .binary => connect_trade_loop om rest
    | .read .ping =>
      let r := connect_trade_loop om rest
      ⟨r.events, .pong :: r.sends, r.om, r.result⟩
    | .read .pong => connect_trade_loop om rest
    | .read .close => ⟨[], [], om, .finishedOk⟩
    | .read .frameMsg => connect_trade_loop om rest
    | .read .readErr => ⟨[], [], om, .transportError⟩
    | .read .streamEnd => ⟨[], [], om, .finishedOk⟩

/-- Every event emitted by the publicTrade item loop is the Trade event of
one of the items, built from the looked-up asset, the item fields, the
millisecond-to-nanosecond conversion and the side mapping. -/
theorem pubTradeLoop_mem (now : Int) (assets : List (String × Asset)) :
    ∀ (items : List TradeItem) (ev : LiveEvent),
      ev ∈ (pubTradeLoop now assets items).1 →
      ∃ item, item ∈ items ∧ ∃ a, alookup assets item.symbol = some a ∧
        ev = LiveEvent.Trade
          { asset_no := a.asset_no
            exch_ts := item.ts * 1000000
            local_ts := now
            side := if item.side = Side.Sell then SELL else BUY
            price := item.trade_price
            qty := item.trade_size } := by
  intro items
  induction items with
  | nil => intro ev h; simp [pubTradeLoop] at h
  | cons item rest ih =>
    intro ev h
    cases hl : alookup assets item.symbol with
    | none => simp [pubTradeLoop, hl] at h
    | some a =>
      simp only [pubTradeLoop, hl, List.mem_cons] at h
      rcases h with h | h
      · exact ⟨item, by simp, a, hl, h⟩
      · obtain ⟨i, hi, a2, ha2, he⟩ := ih ev h
        exact ⟨i, by simp [hi], a2, ha2, he⟩

/-- C6: every Depth and Trade event emitted by handle_public_stream carries
exch_ts equal to the venue millisecond timestamp multiplied by exactly
1000000 (the cts of the envelope for Depth, the item ts for Trade), and
local_ts equal to the local clock at decode time, never the venue
timestamp. -/
theorem c6_timestamps (now : Int) (decoded : Except Unit PublicStreamMsg)
    (assets : List (String × Asset)) (ev : LiveEvent)
    (hev : ev ∈ (handle_public_stream now decoded assets).1) :
    (∀ d, ev = LiveEvent.Depth d → d.local_ts = now ∧
      ∃ tm c, decoded = Except.ok (PublicStreamMsg.Topic tm) ∧ tm.cts = some c ∧
        d.exch_ts = c * 1000000)
    ∧ (∀ t, ev = LiveEvent.Trade t → t.local_ts = now ∧
      ∃ tm items item a, decoded = Except.ok (PublicStreamMsg.Topic tm)
        ∧ decodeTrades tm.data = Except.ok items ∧ item ∈ items
        ∧ alookup assets item.symbol = some a
        ∧ t = { asset_no := a.asset_no
                exch_ts := item.ts * 1000000
                local_ts := now
                side := if item.side = Side.Sell then SELL else BUY
                price := item.trade_price
                qty := item.trade_size }) := by
  cases decoded with
  | error e => simp [handle_public_stream] at hev
  | ok m =>
    cases m with
    | Op r => simp [handle_public_stream] at hev
    | Topic tm =>
      by_cases h1 : strStarts tm.topic "orderbook" = true
      · cases hob : decodeOrderBook tm.data with
        | error e => simp [handle_public_stream, h1, hob] at hev
        | ok ob =>
          cases hpd : parse_depth ob.bids ob.asks with
          | error e => simp [handle_public_stream, h1, hob, hpd] at hev
          | ok ba =>
            cases hal : alookup assets ob.symbol with
            | none => simp [handle_public_stream, h1, hob, hpd, hal] at hev
            | some a =>
              cases hc : tm.cts with
              | none => simp [handle_public_stream, h1, hob, hpd, hal, hc] at hev
              | some c =>
                simp only [handle_public_stream, h1, hob, hpd, hal, hc, if_true,
                  List.mem_singleton] at hev
                subst hev
                constructor
                · intro d hd
                  cases hd
                  exact ⟨rfl, tm, c, rfl, hc, rfl⟩
                · intro t ht
                  exact absurd ht (by simp)
      · by_cases h2 : strStarts tm.topic "publicTrade" = true
        · cases htr : decodeTrades tm.data with
          | error e => simp [handle_public_stream, h1, h2, htr] at hev
          | ok items =>
            have hev2 : ev ∈ (pubTradeLoop now assets items).1 := by
              simpa [handle_public_stream, h1, h2, htr] using hev
            obtain ⟨item, hi, a, ha, he⟩ := pubTradeLoop_mem now assets items ev hev2
            subst he
            constructor
            · intro d hd
              exact absurd hd (by simp)
            · intro t ht
              cases ht
              exact ⟨rfl, tm, items, item, a, rfl, htr, hi, ha, rfl⟩
        · simp [handle_public_stream, h1, h2] at hev

/-- C6 witness: a concrete publicTrade payload handled at local time 7
yields a Trade event whose exch_ts is the item timestamp 6 scaled to
nanoseconds and whose local_ts is 7. -/
theorem c6_timestamps_witness :
    (LiveEvent.Trade
        { asset_no := 1, exch_ts := 6000000, local_ts := 7, side := BUY,
          price := 3, qty := 4 }
      ∈ (handle_public_stream 7
          (Except.ok (PublicStreamMsg.Topic
            { topic := "publicTrade.GOOD", cts := none,
              data := RawData.trades
                [{ symbol := "GOOD", ts := 6, side := Side.Other,
                   trade_price := 3, trade_size := 4 }] }))
          [("GOOD", { asset_no := 1 })]).1)
    ∧ (((7 : Int) = 7) ∧ ∃ tm items item a,
        (Except.ok (PublicStreamMsg.Topic
            { topic := "publicTrade.GOOD", cts := none,
              data := RawData.trades
                [{ symbol := "GOOD", ts := 6, side := Side.Other,
                   trade_price := 3, trade_size := 4 }] })
          : Except Unit PublicStreamMsg)
          = Except.ok (PublicStreamMsg.Topic tm)
        ∧ decodeTrades tm.data = Except.ok items ∧ item ∈ items
        ∧ alookup [("GOOD", ({ asset_no := 1 } : Asset))] item.symbol = some a
        ∧ ({ asset_no := 1, exch_ts := 6000000, local_ts := 7, side := BUY,
             price := 3, qty := 4 } : Trade)
          = { asset_no := a.asset_no
              exch_ts := item.ts * 1000000
              local_ts := 7
              side := if item.side = Side.Sell then SELL else BUY
              price := item.trade_price
              qty := item.trade_size }) :=
  ⟨by exact List.mem_singleton.mpr rfl,
    (c6_timestamps 7
      (Except.ok (PublicStreamMsg.Topic
        { topic := "publicTrade.GOOD", cts := none,
          data := RawData.trades
            [{ symbol := "GOOD", ts := 6, side := Side.Other,
               trade_price := 3, trade_size := 4 }] }))
      [("GOOD", { asset_no := 1 })]
      (LiveEvent.Trade
        { asset_no := 1, exch_ts := 6000000, local_ts := 7, side := BUY,
          price := 3, qty := 4 })
      (by exact List.mem_singleton.mpr rfl)).2
      { asset_no := 1, exch_ts := 6000000, local_ts := 7, side := BUY,
        price := 3, qty := 4 } rfl⟩

/-- C7: an order-book topic payload whose optional venue timestamp cts is
absent reaches the unconditional unwrap once the data decode, the depth
parse and the asset lookup have succeeded, and the handler panics instead
of failing only that message. -/
theorem c7_missing_cts_panics (now : Int) (tm : TopicMsg) (ob : OrderBook)
    (assets : List (String × Asset))
    (ba : List (Rat × Rat) × List (Rat × Rat)) (a : Asset)
    (h1 : strStarts tm.topic "orderbook" = true)
    (h2 : decodeOrderBook tm.data = Except.ok ob)
    (h3 : parse_depth ob.bids ob.asks = Except.ok ba)
    (h4 : alookup assets ob.symbol = some a)
    (h5 : tm.cts = none) :
    handle_public_stream now (Except.ok (PublicStreamMsg.Topic tm)) assets
      = ([], HandlerOutcome.panicked) := by
  simp [handle_public_stream, h1, h2, h3, h4, h5]

/-- C7 witness: a concrete order-book frame without cts panics the
handler. -/
theorem c7_missing_cts_panics_witness :
    handle_public_stream 0
      (Except.ok (PublicStreamMsg.Topic
        { topic := "orderbook.1.BTCUSDT", cts := none,
          data := RawData.orderBook
            { symbol := "BTCUSDT", bids := [("100", "2")], asks := [("101", "1")] } }))
      [("BTCUSDT", { asset_no := 3 })]
      = ([], HandlerOutcome.panicked) :=
  c7_missing_cts_panics 0
    { topic := "orderbook.1.BTCUSDT", cts := none,
      data := RawData.orderBook
        { symbol := "BTCUSDT", bids := [("100", "2")], asks := [("101", "1")] } }
    { symbol := "BTCUSDT", bids := [("100", "2")], asks := [("101", "1")] }
    [("BTCUSDT", { asset_no := 3 })]
    ([((100 : Rat), 2)], [((101 : Rat), 1)]) { asset_no := 3 }
    (by rfl) (by rfl) (by rfl) (by rfl) (by rfl)

/-- C8: a price or quantity string that does not parse as a number fails
per-field without panicking (parse_px_qty_tup returns the numeric parse
error), the decode error aborts only that message (the handler emits
nothing and returns the error), and the public session loop logs the error
and continues processing subsequent frames. -/
theorem c8_parse_fail_recovery :
    (∀ px qty : String, parseDec px = none →
      parse_px_qty_tup px qty = Except.error HandleError.NumParseError)
    ∧ (∀ (now : Int) (tm : TopicMsg) (ob : OrderBook) (e : HandleError)
        (assets : List (String × Asset)),
        strStarts tm.topic "orderbook" = true →
        decodeOrderBook tm.data = Except.ok ob →
        parse_depth ob.bids ob.asks = Except.error e →
        handle_public_stream now (Except.ok (PublicStreamMsg.Topic tm)) assets
          = ([], HandlerOutcome.err e))
    ∧ (∀ (now : Int) (f : Except Unit PublicStreamMsg)
        (assets : List (String × Asset)) (rest : List (Int × PubArm)) (e : HandleError),
        (handle_public_stream now f assets).2 = HandlerOutcome.err e →
        connect_public_loop assets ((now, PubArm.read (SocketRead.text f)) :: rest)
          = ((handle_public_stream now f assets).1 ++ (connect_public_loop assets rest).1,
             (connect_public_loop assets rest).2)) := by
  refine ⟨?_, ?_, ?_⟩
  · intro px qty hpx
    simp [parse_px_qty_tup, hpx]
  · intro now tm ob e assets h1 h2 h3
    simp [handle_public_stream, h1, h2, h3]
  · intro now f assets rest e he
    simp [connect_public_loop, he]

/-- C8 witness: a malformed bid price aborts only its own message and the
loop continues into a frame that still emits its event. -/
theorem c8_parse_fail_recovery_witness :
    parse_px_qty_tup "abc" "1" = Except.error HandleError.NumParseError
    ∧ handle_public_stream 0
        (Except.ok (PublicStreamMsg.Topic
          { topic := "orderbook.1.BTCUSDT", cts := some 5,
            data := RawData.orderBook
              { symbol := "BTCUSDT", bids := [("abc", "2")], asks := [] } }))
        [("BTCUSDT", { asset_no := 3 })]
        = ([], HandlerOutcome.err HandleError.NumParseError)
    ∧ connect_public_loop [("BTCUSDT", { asset_no := 3 })]
        [(0, PubArm.read (SocketRead.text (Except.ok (PublicStreamMsg.Topic
          { topic := "orderbook.1.BTCUSDT", cts := some 5,
            data := RawData.orderBook
              { symbol := "BTCUSDT", bids := [("abc", "2")], asks := [] } }))))]
        = ((handle_public_stream 0 (Except.ok (PublicStreamMsg.Topic
            { topic := "orderbook.1.BTCUSDT", cts := some 5,
              data := RawData.orderBook
                { symbol := "BTCUSDT", bids := [("abc", "2")], asks := [] } }))
            [("BTCUSDT", { asset_no := 3 })]).1
            ++ (connect_public_loop [("BTCUSDT", { asset_no := 3 })] []).1,
           (connect_public_loop [("BTCUSDT", { asset_no := 3 })] []).2) :=
  ⟨c8_parse_fail_recovery.1 "abc" "1" (by rfl),
   c8_parse_fail_recovery.2.1 0
     { topic := "orderbook.1.BTCUSDT", cts := some 5,
       data := RawData.orderBook
         { symbol := "BTCUSDT", bids := [("abc", "2")], asks := [] } }
     { symbol := "BTCUSDT", bids := [("abc", "2")], asks := [] }
     HandleError.NumParseError [("BTCUSDT", { asset_no := 3 })]
     (by rfl) (by rfl) (by rfl),
   c8_parse_fail_recovery.2.2 0
     (Except.ok (PublicStreamMsg.Topic
       { topic := "orderbook.1.BTCUSDT", cts := some 5,
         data := RawData.orderBook
           { symbol := "BTCUSDT", bids := [("abc", "2")], asks := [] } }))
     [("BTCUSDT", { asset_no := 3 })] [] HandleError.NumParseError (by rfl)⟩

/-- C10: every Trade event emitted by the publicTrade item loop has side
SELL exactly when the venue-reported item side equals Sell, and BUY in
every other case, including an unexpected side value. -/
theorem c10_side_mapping (now : Int) (assets : List (String × Asset))
    (items : List TradeItem) (t : Trade)
    (ht : LiveEvent.Trade t ∈ (pubTradeLoop now assets items).1) :
    ∃ item, item ∈ items ∧ (t.side = SELL ↔ item.side = Side.Sell)
      ∧ (item.side ≠ Side.Sell → t.side = BUY) := by
  obtain ⟨item, hi, a, ha, he⟩ := pubTradeLoop_mem now assets items _ ht
  cases he
  refine ⟨item, hi, ?_, ?_⟩
  · by_cases hs : item.side = Side.Sell <;> simp [hs, SELL, BUY]
  · intro hs
    simp [hs, BUY]

/-- C10 witness: an item with an unexpected side value yields a BUY-coded
Trade event. -/
theorem c10_side_mapping_witness :
    (LiveEvent.Trade
        { asset_no := 1, exch_ts := 6000000, local_ts := 7, side := BUY,
          price := 3, qty := 4 }
      ∈ (pubTradeLoop 7 [("GOOD", { asset_no := 1 })]
          [{ symbol := "GOOD", ts := 6, side := Side.Other,
             trade_price := 3, trade_size := 4 }]).1)
    ∧ ∃ item, item ∈ [({ symbol := "GOOD", ts := 6, side := Side.Other,
                         trade_price := 3, trade_size := 4 } : TradeItem)]
        ∧ ((BUY : Int) = SELL ↔ item.side = Side.Sell)
        ∧ (item.side ≠ Side.Sell → (BUY : Int) = BUY) :=
  ⟨by exact List.mem_singleton.mpr rfl,
   c10_side_mapping 7 [("GOOD", { asset_no := 1 })]
     [{ symbol := "GOOD", ts := 6, side := Side.Other,
        trade_price := 3, trade_size := 4 }]
     { asset_no := 1, exch_ts := 6000000, local_ts := 7, side := BUY,
       price := 3, qty := 4 }
     (by exact List.mem_singleton.mpr rfl)⟩

/-- C3 counterexample: a public trade payload whose first item has an
unknown symbol; its sibling with a known symbol ("GOOD", present in the
mapping) produces no event, because the lookup failure aborts the batch:
the handler emits nothing and returns the diagnostic. -/
theorem c3_counterexample :
    handle_public_stream 7
      (Except.ok (PublicStreamMsg.Topic
        { topic := "publicTrade.X", cts := none,
          data := RawData.trades
            [{ symbol := "BAD", ts := 5, side := Side.Sell,
               trade_price := 1, trade_size := 2 },
             { symbol := "GOOD", ts := 6, side := Side.Buy,
               trade_price := 3, trade_size := 4 }] }))
      [("GOOD", { asset_no := 1 })]
      = ([], HandlerOutcome.err HandleError.AssetNotFound)
    ∧ alookup [("GOOD", ({ asset_no := 1 } : Asset))] "GOOD"
      = some { asset_no := 1 } := by
  exact ⟨rfl, rfl⟩

/-- C3 amended: in a public trade or private position payload, items before
the first unknown-symbol item still produce their events and a diagnostic
(AssetNotFound) is raised, but the lookup failure aborts the remainder of
the batch: the unknown item and every sibling after it produce no event. -/
theorem c3_amended :
    (∀ (now : Int) (assets : List (String × Asset)) (front : List TradeItem)
        (item : TradeItem) (back : List TradeItem),
      (∀ i ∈ front, (alookup assets i.symbol).isSome) →
      alookup assets item.symbol = none →
      pubTradeLoop now assets (front ++ item :: back)
        = ((pubTradeLoop now assets front).1, Except.error HandleError.AssetNotFound))
    ∧ (∀ (assets : List (String × Asset)) (front : List PositionItem)
        (item : PositionItem) (back : List PositionItem),
      (∀ i ∈ front, (alookup assets i.symbol).isSome) →
      alookup assets item.symbol = none →
      privPositionLoop assets (front ++ item :: back)
        = ((privPositionLoop assets front).1, Except.error HandleError.AssetNotFound)) := by
  constructor
  · intro now assets front item back hfront hitem
    induction front with
    | nil => simp [pubTradeLoop, hitem]
    | cons i fr ih =>
      obtain ⟨a, ha⟩ := Option.isSome_iff_exists.mp (hfront i (by simp))
      have ih2 := ih (fun j hj => hfront j (by simp [hj]))
      simp [pubTradeLoop, ha, ih2]
  · intro assets front item back hfront hitem
    induction front with
    | nil => simp [privPositionLoop, hitem]
    | cons i fr ih =>
      obtain ⟨a, ha⟩ := Option.isSome_iff_exists.mp (hfront i (by simp))
      have ih2 := ih (fun j hj => hfront j (by simp [hj]))
      simp [privPositionLoop, ha, ih2]

/-- C3 amended witness: a known-symbol item followed by an unknown one, for
both payload kinds; only the leading item's event is emitted and the
diagnostic is raised. -/
theorem c3_amended_witness :
    pubTradeLoop 7 [("GOOD", { asset_no := 1 })]
      ([{ symbol := "GOOD", ts := 6, side := Side.Buy,
          trade_price := 3, trade_size := 4 }]
        ++ { symbol := "BAD", ts := 5, side := Side.Sell,
             trade_price := 1, trade_size := 2 } ::
          [{ symbol := "GOOD", ts := 8, side := Side.Sell,
             trade_price := 3, trade_size := 4 }])
      = ((pubTradeLoop 7 [("GOOD", { asset_no := 1 })]
          [{ symbol := "GOOD", ts := 6, side := Side.Buy,
             trade_price := 3, trade_size := 4 }]).1,
         Except.error HandleError.AssetNotFound)
    ∧ privPositionLoop [("GOOD", { asset_no := 1 })]
        ([{ symbol := "GOOD", position_value := 5 }]
          ++ ({ symbol := "BAD", position_value := 2 } : PositionItem) :: [])
      = ((privPositionLoop [("GOOD", { asset_no := 1 })]
          [{ symbol := "GOOD", position_value := 5 }]).1,
         Except.error HandleError.AssetNotFound) :=
  ⟨c3_amended.1 7 [("GOOD", { asset_no := 1 })]
      [{ symbol := "GOOD", ts := 6, side := Side.Buy,
         trade_price := 3, trade_size := 4 }]
      { symbol := "BAD", ts := 5, side := Side.Sell,
        trade_price := 1, trade_size := 2 }
      [{ symbol := "GOOD", ts := 8, side := Side.Sell,
         trade_price := 3, trade_size := 4 }]
      (by intro i hi; cases List.mem_singleton.mp hi; rfl) (by rfl),
   c3_amended.2 [("GOOD", { asset_no := 1 })]
      [{ symbol := "GOOD", position_value := 5 }]
      { symbol := "BAD", position_value := 2 } []
      (by intro i hi; cases List.mem_singleton.mp hi; rfl) (by rfl)⟩

/-- C1 counterexample: a private auth acknowledgement with success false
followed by a position frame.  No subscription is sent, but contrary to the
claim the loop does not terminate and does not stop emitting: the later
position frame still produces its Position event and the loop is still
running. -/
theorem c1_counterexample :
    connect_private_loop [("GOOD", { asset_no := 1 })] []
      [PrivArm.read (SocketRead.text (Except.ok (PrivateStreamMsg.Op
          { req_id := some "auth", op := "auth", success := some false }))),
       PrivArm.read (SocketRead.text (Except.ok (PrivateStreamMsg.Topic
          (PrivateStreamTopicMsg.Position
            [{ symbol := "GOOD", position_value := 5 }]))))]
      = { events := [LiveEvent.Position { asset_no := 1, symbol := "GOOD", qty := 5 }],
          sends := [], om := [], result := LoopResult.running } := by
  exact rfl

/-- C1 amended: on a private auth acknowledgement reporting failure no
subscription request is sent and no event is emitted, but the failure is
otherwise ignored: the handler returns normally (the else branch of the
source is empty) and the session loop continues processing subsequent
frames exactly as if the frame had not arrived; authentication failure is
not fatal and raises no Error event. -/
theorem c1_amended (resp : OpResp) (assets : List (String × Asset))
    (om : OrderManager) (rest : List PrivArm)
    (h1 : resp.op = "auth") (h2 : resp.success = some false) :
    handle_private_stream (Except.ok (PrivateStreamMsg.Op resp)) assets om
      = { events := [], sends := [], om := om, outcome := HandlerOutcome.ok }
    ∧ connect_private_loop assets om
        (PrivArm.read (SocketRead.text (Except.ok (PrivateStreamMsg.Op resp))) :: rest)
      = connect_private_loop assets om rest := by
  have hh : handle_private_stream (Except.ok (PrivateStreamMsg.Op resp)) assets om
      = { events := [], sends := [], om := om, outcome := HandlerOutcome.ok } := by
    simp [handle_private_stream, h1, h2]
  refine ⟨hh, ?_⟩
  simp [connect_private_loop, hh]

/-- C1 amended witness: the concrete auth-failure frame contributes nothing
and leaves the loop running over the remaining schedule. -/
theorem c1_amended_witness :
    handle_private_stream (Except.ok (PrivateStreamMsg.Op
        { req_id := some "auth", op := "auth", success := some false }))
      [("GOOD", { asset_no := 1 })] []
      = { events := [], sends := [], om := [], outcome := HandlerOutcome.ok }
    ∧ connect_private_loop [("GOOD", { asset_no := 1 })] []
        (PrivArm.read (SocketRead.text (Except.ok (PrivateStreamMsg.Op
          { req_id := some "auth", op := "auth", success := some false }))) :: [])
      = connect_private_loop [("GOOD", { asset_no := 1 })] [] [] :=
  c1_amended { req_id := some "auth", op := "auth", success := some false }
    [("GOOD", { asset_no := 1 })] [] [] (by rfl) (by rfl)

/-- C9: a private operation acknowledgement with op auth whose optional
success field is absent panics the handler (the unconditional unwrap of
resp.success) instead of returning a decode error. -/
theorem c9_missing_success_panics (resp : OpResp) (assets : List (String × Asset))
    (om : OrderManager) (h1 : resp.op = "auth") (h2 : resp.success = none) :
    handle_private_stream (Except.ok (PrivateStreamMsg.Op resp)) assets om
      = { events := [], sends := [], om := om, outcome := HandlerOutcome.panicked } := by
  simp [handle_private_stream, h1, h2]

/-- C9 witness: a concrete auth acknowledgement without a success field
panics the private handler. -/
theorem c9_missing_success_panics_witness :
    handle_private_stream (Except.ok (PrivateStreamMsg.Op
        { req_id := some "auth", op := "auth", success := none }))
      [("GOOD", { asset_no := 1 })] []
      = { events := [], sends := [], om := [], outcome := HandlerOutcome.panicked } :=
  c9_missing_success_panics { req_id := some "auth", op := "auth", success := none }
    [("GOOD", { asset_no := 1 })] [] (by rfl) (by rfl)

/-- C2 counterexample: a trade-session auth acknowledgement with a non-zero
result code followed by a failing order.create acknowledgement.  The
critical-connection Error event is emitted, but contrary to the claim the
connect_trade loop does not terminate: it processes the later frame, which
still yields its OrderUpdate and Error events, and the loop is still
running. -/
theorem c2_counterexample :
    connect_trade_loop
      [("abc", { asset_no := 0, req_id := "abc", status := OrdStatus.Submitted,
                 qty := 1, filled := 0, pendingCancel := false })]
      [(0, TradeArm.read (SocketRead.text (Except.ok
          { req_id := none, op := "auth", ret_code := 20001, ret_msg := "bad sign" }))),
       (1, TradeArm.read (SocketRead.text (Except.ok
          { req_id := some "abc", op := "order.create", ret_code := 10429,
            ret_msg := "rate limited" })))]
      = { events :=
            [LiveEvent.Error ErrorKind.CriticalConnectionError
              (BybitError.AuthError 20001 "bad sign"),
             LiveEvent.Order 0
              { asset_no := 0, req_id := "abc", status := OrdStatus.SubmitRejected,
                qty := 1, filled := 0, pendingCancel := false },
             LiveEvent.Error ErrorKind.OrderError
              (BybitError.OrderError 10429 "rate limited")],
          sends := [],
          om := [("abc", { asset_no := 0, req_id := "abc",
                           status := OrdStatus.SubmitRejected,
                           qty := 1, filled := 0, pendingCancel := false })],
          result := LoopResult.running } := by
  exact rfl

/-- C2 amended: on a trade-session auth acknowledgement with a non-zero
result code the handler emits a LiveEvent Error of kind
CriticalConnectionError and returns an error, but connect_trade only logs
handler errors: the session loop does not terminate and continues
processing further frames after the emitted Error event. -/
theorem c2_amended (s : TradeStreamMsg) (om : OrderManager) (now : Int)
    (rest : List (Int × TradeArm))
    (h1 : s.op = "auth") (h2 : s.ret_code ≠ 0) :
    handle_trade_stream (Except.ok s) om
      = { events := [LiveEvent.Error ErrorKind.CriticalConnectionError
            (BybitError.AuthError s.ret_code s.ret_msg)],
          om := om,
          outcome := HandlerOutcome.err (HandleError.AuthFailed s.ret_code s.ret_msg) }
    ∧ connect_trade_loop om ((now, TradeArm.read (SocketRead.text (Except.ok s))) :: rest)
      = { events := LiveEvent.Error ErrorKind.CriticalConnectionError
            (BybitError.AuthError s.ret_code s.ret_msg)
            :: (connect_trade_loop om rest).events,
          sends := (connect_trade_loop om rest).sends,
          om := (connect_trade_loop om rest).om,
          result := (connect_trade_loop om rest).result } := by
  have hh : handle_trade_stream (Except.ok s) om
      = { events := [LiveEvent.Error ErrorKind.CriticalConnectionError
            (BybitError.AuthError s.ret_code s.ret_msg)],
          om := om,
          outcome := HandlerOutcome.err (HandleError.AuthFailed s.ret_code s.ret_msg) } := by
    simp [handle_trade_stream, h1, h2]
  refine ⟨hh, ?_⟩
  simp [connect_trade_loop, hh]

/-- C2 amended witness: the concrete failing auth acknowledgement leaves
the loop running with only its Error event prepended. -/
theorem c2_amended_witness :
    handle_trade_stream (Except.ok
        ({ req_id := none, op := "auth", ret_code := 20001,
           ret_msg := "bad sign" } : TradeStreamMsg)) []
      = { events := [LiveEvent.Error ErrorKind.CriticalConnectionError
            (BybitError.AuthError 20001 "bad sign")],
          om := [],
          outcome := HandlerOutcome.err (HandleError.AuthFailed 20001 "bad sign") }
    ∧ connect_trade_loop []
        [(0, TradeArm.read (SocketRead.text (Except.ok
          { req_id := none, op := "auth", ret_code := 20001, ret_msg := "bad sign" })))]
      = { events := LiveEvent.Error ErrorKind.CriticalConnectionError
            (BybitError.AuthError 20001 "bad sign")
            :: (connect_trade_loop [] []).events,
          sends := (connect_trade_loop [] []).sends,
          om := (connect_trade_loop [] []).om,
          result := (connect_trade_loop [] []).result } :=
  c2_amended { req_id := none, op := "auth", ret_code := 20001, ret_msg := "bad sign" }
    [] 0 [] (by rfl) (by decide)

/-- C4: an order-create or order-cancel acknowledgement with a non-zero
result code requires req_id to be present (absence is the ReqIdNotExist
error), invokes update_submit_fail respectively update_cancel_fail, and
when the ledger transition succeeds emits the resulting OrderUpdate event
followed by an Error event carrying the venue result code and message. -/
theorem c4_reject_ack :
    (∀ (s : TradeStreamMsg) (om : OrderManager),
      s.op = "order.create" → s.req_id = none →
      handle_trade_stream (Except.ok s) om
        = { events := [], om := om, outcome := HandlerOutcome.err HandleError.ReqIdNotExist })
    ∧ (∀ (s : TradeStreamMsg) (om om2 : OrderManager) (rid : String)
        (an : Nat) (ord : LedgerOrder),
      s.op = "order.create" → s.req_id = some rid → s.ret_code ≠ 0 →
      update_submit_fail om rid = Except.ok (om2, an, ord) →
      handle_trade_stream (Except.ok s) om
        = { events := [LiveEvent.Order an ord,
              LiveEvent.Error ErrorKind.OrderError
                (BybitError.OrderError s.ret_code s.ret_msg)],
            om := om2, outcome := HandlerOutcome.ok })
    ∧ (∀ (s : TradeStreamMsg) (om : OrderManager),
      s.op = "order.cancel" → s.req_id = none →
      handle_trade_stream (Except.ok s) om
        = { events := [], om := om, outcome := HandlerOutcome.err HandleError.ReqIdNotExist })
    ∧ (∀ (s : TradeStreamMsg) (om om2 : OrderManager) (rid : String)
        (an : Nat) (ord : LedgerOrder),
      s.op = "order.cancel" → s.req_id = some rid → s.ret_code ≠ 0 →
      update_cancel_fail om rid = Except.ok (om2, an, ord) →
      handle_trade_stream (Except.ok s) om
        = { events := [LiveEvent.Order an ord,
              LiveEvent.Error ErrorKind.OrderError
                (BybitError.OrderError s.ret_code s.ret_msg)],
            om := om2, outcome := HandlerOutcome.ok }) := by
  have hne1 : ("order.create" : String) ≠ "auth" := by decide
  have hne2 : ("order.cancel" : String) ≠ "auth" := by decide
  have hne3 : ("order.cancel" : String) ≠ "order.create" := by decide
  refine ⟨?_, ?_, ?_, ?_⟩
  · intro s om h1 hr
    simp [handle_trade_stream, h1, hr, hne1]
  · intro s om om2 rid an ord h1 hr hc hup
    simp [handle_trade_stream, h1, hr, hc, hup, hne1]
  · intro s om h1 hr
    simp [handle_trade_stream, h1, hr, hne2, hne3]
  · intro s om om2 rid an ord h1 hr hc hup
    simp [handle_trade_stream, h1, hr, hc, hup, hne2, hne3]

/-- C4 witness: the spec scenario — order.create acknowledgement with
req_id abc and code 10429 for a Submitted ledger entry yields the
SubmitRejected OrderUpdate and the Error carrying code 10429; and a failing
acknowledgement without req_id is the ReqIdNotExist error. -/
theorem c4_reject_ack_witness :
    handle_trade_stream (Except.ok
        ({ req_id := none, op := "order.create", ret_code := 10429,
           ret_msg := "rate limited" } : TradeStreamMsg)) []
      = { events := [], om := [], outcome := HandlerOutcome.err HandleError.ReqIdNotExist }
    ∧ handle_trade_stream (Except.ok
        ({ req_id := some "abc", op := "order.create", ret_code := 10429,
           ret_msg := "rate limited" } : TradeStreamMsg))
        [("abc", { asset_no := 0, req_id := "abc", status := OrdStatus.Submitted,
                   qty := 1, filled := 0, pendingCancel := false })]
      = { events :=
            [LiveEvent.Order 0
              { asset_no := 0, req_id := "abc", status := OrdStatus.SubmitRejected,
                qty := 1, filled := 0, pendingCancel := false },
             LiveEvent.Error ErrorKind.OrderError
              (BybitError.OrderError 10429 "rate limited")],
          om := [("abc", { asset_no := 0, req_id := "abc",
                           status := OrdStatus.SubmitRejected,
                           qty := 1, filled := 0, pendingCancel := false })],
          outcome := HandlerOutcome.ok } :=
  ⟨c4_reject_ack.1
      { req_id := none, op := "order.create", ret_code := 10429,
        ret_msg := "rate limited" } [] (by rfl) (by rfl),
   c4_reject_ack.2.1
      { req_id := some "abc", op := "order.create", ret_code := 10429,
        ret_msg := "rate limited" }
      [("abc", { asset_no := 0, req_id := "abc", status := OrdStatus.Submitted,
                 qty := 1, filled := 0, pendingCancel := false })]
      [("abc", { asset_no := 0, req_id := "abc", status := OrdStatus.SubmitRejected,
                 qty := 1, filled := 0, pendingCancel := false })]
      "abc" 0
      { asset_no := 0, req_id := "abc", status := OrdStatus.SubmitRejected,
        qty := 1, filled := 0, pendingCancel := false }
      (by rfl) (by rfl) (by decide) (by rfl)⟩

/-- C5: an order-create or order-cancel acknowledgement with a zero result
code mutates no ledger state and emits no event. -/
theorem c5_success_ack_no_effect (s : TradeStreamMsg) (om : OrderManager)
    (h1 : s.op = "order.create" ∨ s.op = "order.cancel") (h2 : s.ret_code = 0) :
    (handle_trade_stream (Except.ok s) om).events = []
    ∧ (handle_trade_stream (Except.ok s) om).om = om := by
  have hne1 : ("order.create" : String) ≠ "auth" := by decide
  have hne2 : ("order.cancel" : String) ≠ "auth" := by decide
  have hne3 : ("order.cancel" : String) ≠ "order.create" := by decide
  rcases h1 with h1 | h1 <;> rcases hr : s.req_id with _ | rid <;>
    simp [handle_trade_stream, h1, h2, hr, hne1, hne2, hne3]

/-- C5 witness: a successful order.create acknowledgement for a Submitted
entry leaves the ledger unchanged and emits nothing. -/
theorem c5_success_ack_no_effect_witness :
    (handle_trade_stream (Except.ok
        ({ req_id := some "abc", op := "order.create", ret_code := 0,
           ret_msg := "OK" } : TradeStreamMsg))
        [("abc", { asset_no := 0, req_id := "abc", status := OrdStatus.Submitted,
                   qty := 1, filled := 0, pendingCancel := false })]).events = []
    ∧ (handle_trade_stream (Except.ok
        ({ req_id := some "abc", op := "order.create", ret_code := 0,
           ret_msg := "OK" } : TradeStreamMsg))
        [("abc", { asset_no := 0, req_id := "abc", status := OrdStatus.Submitted,
                   qty := 1, filled := 0, pendingCancel := false })]).om
      = [("abc", { asset_no := 0, req_id := "abc", status := OrdStatus.Submitted,
                   qty := 1, filled := 0, pendingCancel := false })] :=
  c5_success_ack_no_effect
    { req_id := some "abc", op := "order.create", ret_code := 0, ret_msg := "OK" }
    [("abc", { asset_no := 0, req_id := "abc", status := OrdStatus.Submitted,
               qty := 1, filled := 0, pendingCancel := false })]
    (Or.inl (by rfl)) (by rfl)

end BybitWs
